import Mathlib

/-!
Verification of the warehouse pallet-position calculator (`src/app.py`).

The numeric quantities in the program are Python floats used only through
ordering comparisons, `+`, `-`, `*`, `/` and `floor`; they are modelled here
as rationals (`ℚ`).  The core algorithm verified is `assign_pallets`
(`src/app.py`, lines 268-324), together with a spec-level model of the
pallet configurator (the `configure` stage described in the specification,
which has no counterpart under `src/`).
-/

namespace Warehouse

/-- A pallet position type (`class PositionType`, src/app.py lines 6-31). -/
structure PositionType where
  aisle : String
  level : String
  max_height : ℚ
  width_capacity : ℚ
  weight_capacity : ℚ
deriving DecidableEq, Repr

/-- An inventory item (`class Item`, src/app.py lines 33-58). -/
structure Item where
  sku : String
  length : ℚ
  width : ℚ
  height : ℚ
  weight : ℚ
deriving DecidableEq, Repr

/-- One entry of the `item_assignments` output list
(`{'sku': ..., 'assigned_to': ...}`, src/app.py lines 312-315). -/
structure Assignment where
  sku : String
  assigned_to : String
deriving DecidableEq, Repr

/-- The position key string `f"Aisle {position.aisle} Level {position.level}"`
(src/app.py line 298). -/
def position_key (p : PositionType) : String :=
  "Aisle " ++ p.aisle ++ " Level " ++ p.level

/-- The height clearance.  In `assign_pallets` it is the literal `4`
(src/app.py line 303, "4-inch clearance"); the spec calls it the global
clearance constant with default value 4.0. -/
def clearance : ℚ := 4

/-- The acceptance test of the inner loop of `assign_pallets`
(src/app.py lines 301-304): all four constraints must hold simultaneously. -/
def fitsCheck (fixed_length : ℚ) (item : Item) (position : PositionType) : Bool :=
  decide (item.length ≤ fixed_length) &&
  decide (item.width ≤ position.width_capacity) &&
  decide (item.height ≤ position.max_height - clearance) &&
  decide (item.weight ≤ position.weight_capacity)

/-- Comparison key of the sort in `assign_pallets`
(`sorted(position_types, key=lambda p: p.max_height)`, src/app.py line 289). -/
def heightLE (p q : PositionType) : Prop :=
  p.max_height ≤ q.max_height

instance (p q : PositionType) : Decidable (heightLE p q) :=
  inferInstanceAs (Decidable (p.max_height ≤ q.max_height))

instance : IsTotal PositionType heightLE :=
  ⟨fun p q => le_total p.max_height q.max_height⟩

instance : IsTrans PositionType heightLE :=
  ⟨fun _ _ _ h h2 => le_trans h h2⟩

/-- Python's `sorted(position_types, key=lambda p: p.max_height)`
(src/app.py line 289): the stable ascending sort by `max_height`, modelled by
insertion sort, which is stable for `heightLE` (a new element is inserted
before the first strictly larger element, after earlier equal ones). -/
def sortPositions (position_types : List PositionType) : List PositionType :=
  List.insertionSort heightLE position_types

/-- The inner loop of `assign_pallets` (src/app.py lines 296-318): scan the
sorted positions and stop at the first one passing `fitsCheck`. -/
def assignedPosition (fixed_length : ℚ) (position_types : List PositionType)
    (item : Item) : Option PositionType :=
  (sortPositions position_types).find? (fitsCheck fixed_length item)

/-- The position key the item is assigned to, if any. -/
def assignedKey (fixed_length : ℚ) (position_types : List PositionType)
    (item : Item) : Option String :=
  (assignedPosition fixed_length position_types item).map position_key

/-- The `item_assignments` record produced for an item, if it is assigned. -/
def assignedRecord (fixed_length : ℚ) (position_types : List PositionType)
    (item : Item) : Option Assignment :=
  (assignedPosition fixed_length position_types item).map
    (fun p => ⟨item.sku, position_key p⟩)

/-- The `unassigned_items` entry produced for an item: its sku, exactly when
no position accepts it (src/app.py lines 321-322). -/
def unassignedId (fixed_length : ℚ) (position_types : List PositionType)
    (item : Item) : Option String :=
  match assignedPosition fixed_length position_types item with
  | some _ => none
  | none => some item.sku

/-- The dict update of src/app.py lines 307-309: if the key is absent, insert
it with count 0 at the end (Python dicts keep insertion order), then increment
it. -/
def incrementKey : List (String × Nat) → String → List (String × Nat)
  | [], k => [(k, 1)]
  | (k0, n) :: rest, k =>
    if k0 = k then (k0, n + 1) :: rest else (k0, n) :: incrementKey rest k

/-- The three accumulators of `assign_pallets` (src/app.py lines 283-285). -/
structure AssignState where
  assignments : List (String × Nat)
  unassigned_items : List String
  item_assignments : List Assignment
deriving DecidableEq, Repr

/-- One iteration of the outer loop of `assign_pallets`
(src/app.py lines 292-322), given the already-sorted position list. -/
def assignStep (fixed_length : ℚ) (sorted_positions : List PositionType)
    (st : AssignState) (item : Item) : AssignState :=
  match sorted_positions.find? (fitsCheck fixed_length item) with
  | some position =>
      { assignments := incrementKey st.assignments (position_key position)
        unassigned_items := st.unassigned_items
        item_assignments :=
          st.item_assignments ++ [⟨item.sku, position_key position⟩] }
  | none =>
      { st with unassigned_items := st.unassigned_items ++ [item.sku] }

/-- `assign_pallets(fixed_length, position_types, items)`
(src/app.py lines 268-324).  Returns, in the source's order,
`(assignments, unassigned_items, item_assignments)`: the per-position-key
counts (a dict, modelled as an association list in insertion order), the skus
of the items that fit nowhere, and the per-item assignment records. -/
def assign_pallets (fixed_length : ℚ) (position_types : List PositionType)
    (items : List Item) :
    List (String × Nat) × List String × List Assignment :=
  let sorted_positions := sortPositions position_types
  let final := items.foldl (assignStep fixed_length sorted_positions)
    ⟨[], [], []⟩
  (final.assignments, final.unassigned_items, final.item_assignments)

/-- Looking a key up in the counts dict, defaulting to 0 (as the result page
does with `assignments.get(position_key, 0)`, src/app.py line 244). -/
def countLookup : List (String × Nat) → String → Nat
  | [], _ => 0
  | (k0, n) :: rest, k => if k0 = k then n else countLookup rest k

/-- Sum of all counts in the counts dict. -/
def sumCounts (assignments : List (String × Nat)) : Nat :=
  (assignments.map Prod.snd).sum

/-- The counts accumulator of one outer-loop iteration, in isolation. -/
def countsStep (fixed_length : ℚ) (position_types : List PositionType)
    (acc : List (String × Nat)) (item : Item) : List (String × Nat) :=
  match assignedKey fixed_length position_types item with
  | some k => incrementKey acc k
  | none => acc

/-! ### The pallet configurator, modelled from the spec

The pallet configurator (`configure_pallets`) described in §4.1 of the
specification has no counterpart under `src/`; the definitions below are
modelled from the specification text. -/

/-- Modelled from the spec: a Box record (§3), one SKU's box dimensions,
weight and count; the `configure_pallets` data type is missing from `src/`. -/
structure Box where
  sku : String
  length : ℚ
  width : ℚ
  height : ℚ
  weight : ℚ
  total_boxes : Nat
deriving DecidableEq, Repr

/-- Modelled from the spec: a Pallet record (§3), derived by the
configurator; missing from `src/`. -/
structure Pallet where
  sku : String
  length : ℚ
  width : ℚ
  height : ℚ
  weight : ℚ
  boxes : Nat
deriving DecidableEq, Repr

/-- Modelled from the spec: §4.1 step 1 (missing from `src/`) — boxes that
tile one layer of the pallet footprint, the better of the two axis-aligned
orientations. -/
def boxes_per_layer (pallet_length pallet_width : ℚ) (box : Box) : Nat :=
  max (Nat.floor (pallet_length / box.length) *
        Nat.floor (pallet_width / box.width))
      (Nat.floor (pallet_length / box.width) *
        Nat.floor (pallet_width / box.length))

/-- Modelled from the spec: §4.1 step 2 (missing from `src/`) — the
achievable layer count at one position type, `none` when a single box height
does not fit under the clearance or one layer exceeds the weight capacity. -/
def layersAt (cl : ℚ) (box : Box) (bpl : Nat) (p : PositionType) :
    Option Nat :=
  if box.height ≤ p.max_height - cl ∧ (bpl : ℚ) * box.weight ≤ p.weight_capacity
  then
    some (min (Nat.floor ((p.max_height - cl) / box.height))
              (Nat.floor (p.weight_capacity / ((bpl : ℚ) * box.weight))))
  else none

/-- Modelled from the spec: §4.1 step 2 (missing from `src/`) — the maximum
achievable layer count across all position types, 0 when none is feasible. -/
def max_layers (cl : ℚ) (box : Box) (bpl : Nat)
    (position_types : List PositionType) : Nat :=
  (position_types.filterMap (layersAt cl box bpl)).foldr max 0

/-- Modelled from the spec: §4.1 step 3 (missing from `src/`) — distribute
the remaining box count over pallets, taking `min bpp remaining` boxes per
pallet and deriving each pallet's real layer count, height and weight.  The
`n = 0` guard only serves termination: `configure` always calls this with
`bpp ≥ 1`, so the guard never fires there. -/
def distribute (sku : String)
    (pallet_length pallet_width box_height box_weight : ℚ)
    (bpl bpp : Nat) : Nat → List Pallet
  | 0 => []
  | r + 1 =>
    let n := min bpp (r + 1)
    if h : n = 0 then []
    else
      ⟨sku, pallet_length, pallet_width,
        (Nat.ceil ((n : ℚ) / (bpl : ℚ)) : ℚ) * box_height,
        (n : ℚ) * box_weight, n⟩ ::
        distribute sku pallet_length pallet_width box_height box_weight
          bpl bpp (r + 1 - n)
termination_by r => r
decreasing_by
  simp_wf
  omega

/-- Modelled from the spec: the `configure(box, pallet_length, pallet_width,
position_types, clearance)` contract of §4.1 (missing from `src/`): `none`
when the footprint fits in neither orientation or no position type yields a
feasible layer count ≥ 1, otherwise the pallet sequence. -/
def configure (box : Box) (pallet_length pallet_width : ℚ)
    (position_types : List PositionType) (cl : ℚ) : Option (List Pallet) :=
  let bpl := boxes_per_layer pallet_length pallet_width box
  if bpl = 0 then none
  else
    let ml := max_layers cl box bpl position_types
    if ml = 0 then none
    else
      some (distribute box.sku pallet_length pallet_width box.height
        box.weight bpl (bpl * ml) box.total_boxes)

/-! ### Concrete records used by witnesses and counterexamples -/

/-- A position of max height 50 (Scenarios 1, 3 and 4 of the spec). -/
def pos50 : PositionType := ⟨"A", "1", 50, 40, 2000⟩

/-- A position of max height 60 (Scenario 4 of the spec). -/
def pos60 : PositionType := ⟨"B", "2", 60, 40, 2000⟩

/-- An item satisfying both `pos50` and `pos60` under fixed length 48. -/
def itemFit : Item := ⟨"SKU-F", 40, 38, 30, 100⟩

/-- An item (height 100) that fits no position of max height 50 or 60. -/
def itemBig : Item := ⟨"BIG", 40, 38, 100, 100⟩

/-- The item of Scenario 3 of the spec: height 46, otherwise within the
capacities of `pos50` under fixed length 48. -/
def itemH46 : Item := ⟨"SKU46", 40, 38, 46, 100⟩

/-- The box of Scenario 1 of the spec: 12×10×10, weight 50, 100 boxes. -/
def box1 : Box := ⟨"SKU1", 12, 10, 10, 50, 100⟩

/-- The pallets Scenario 1 expects: 32, 32, 32 and 4 boxes with heights
20, 20, 20 and 10. -/
def scenario1Pallets : List Pallet :=
  [⟨"SKU1", 48, 40, 20, 1600, 32⟩, ⟨"SKU1", 48, 40, 20, 1600, 32⟩,
   ⟨"SKU1", 48, 40, 20, 1600, 32⟩, ⟨"SKU1", 48, 40, 10, 200, 4⟩]

/-! ### Helper lemmas about the assignment loop -/

theorem fitsCheck_iff (fixed_length : ℚ) (item : Item) (p : PositionType) :
    fitsCheck fixed_length item p = true ↔
      (item.length ≤ fixed_length ∧ item.width ≤ p.width_capacity ∧
       item.height ≤ p.max_height - clearance ∧
       item.weight ≤ p.weight_capacity) := by
  simp only [fitsCheck, Bool.and_eq_true, decide_eq_true_eq]
  tauto

theorem find?_first {α : Type _} (f : α → Bool) :
    ∀ {l : List α} {a : α}, l.find? f = some a →
      ∃ l₁ l₂, l = l₁ ++ a :: l₂ ∧ ∀ x ∈ l₁, f x = false := by
  intro l
  induction l with
  | nil => intro a h; simp at h
  | cons b l ih =>
    intro a h
    cases hb : f b with
    | true =>
      rw [List.find?_cons_of_pos l hb] at h
      injection h with h
      subst h
      exact ⟨[], l, rfl, by simp⟩
    | false =>
      rw [List.find?_cons_of_neg l (by simp [hb])] at h
      obtain ⟨l₁, l₂, rfl, hl₁⟩ := ih h
      refine ⟨b :: l₁, l₂, rfl, ?_⟩
      intro x hx
      rcases List.mem_cons.mp hx with rfl | hx2
      · exact hb
      · exact hl₁ x hx2

theorem assign_foldl_eq (fixed_length : ℚ) (position_types : List PositionType) :
    ∀ (items : List Item) (st : AssignState),
      items.foldl (assignStep fixed_length (sortPositions position_types)) st =
        ⟨items.foldl (countsStep fixed_length position_types) st.assignments,
         st.unassigned_items ++ items.filterMap (unassignedId fixed_length position_types),
         st.item_assignments ++ items.filterMap (assignedRecord fixed_length position_types)⟩ := by
  intro items
  induction items with
  | nil => intro st; simp
  | cons it items ih =>
    intro st
    rw [List.foldl_cons, List.foldl_cons, ih]
    cases h : assignedPosition fixed_length position_types it with
    | some p =>
      have hfind : List.find? (fitsCheck fixed_length it) (sortPositions position_types) =
          some p := h
      simp [assignStep, hfind, countsStep, assignedKey, assignedRecord, unassignedId, h]
    | none =>
      have hfind : List.find? (fitsCheck fixed_length it) (sortPositions position_types) =
          none := h
      simp [assignStep, hfind, countsStep, assignedKey, assignedRecord, unassignedId, h]

theorem assign_pallets_eq (fixed_length : ℚ) (position_types : List PositionType)
    (items : List Item) :
    assign_pallets fixed_length position_types items =
      (items.foldl (countsStep fixed_length position_types) [],
       items.filterMap (unassignedId fixed_length position_types),
       items.filterMap (assignedRecord fixed_length position_types)) := by
  simp only [assign_pallets]
  rw [assign_foldl_eq]
  simp

theorem countLookup_incrementKey (a : List (String × Nat)) (k k0 : String) :
    countLookup (incrementKey a k0) k =
      countLookup a k + (if k0 = k then 1 else 0) := by
  induction a with
  | nil =>
    by_cases h : k0 = k
    · simp [incrementKey, countLookup, h]
    · simp [incrementKey, countLookup, h]
  | cons hd tl ih =>
    obtain ⟨k1, n⟩ := hd
    by_cases h1 : k1 = k0
    · subst h1
      by_cases h2 : k1 = k <;> simp [incrementKey, countLookup, h2]
    · by_cases h2 : k1 = k
      · subst h2
        simp [incrementKey, countLookup, h1, ih]
        intro hk; exact absurd hk.symm h1
      · simp [incrementKey, countLookup, h1, h2, ih]

theorem sumCounts_incrementKey (a : List (String × Nat)) (k : String) :
    sumCounts (incrementKey a k) = sumCounts a + 1 := by
  induction a with
  | nil => simp [incrementKey, sumCounts]
  | cons hd tl ih =>
    obtain ⟨k1, n⟩ := hd
    by_cases h : k1 = k
    · simp [incrementKey, sumCounts, h]
      omega
    · simp [incrementKey, sumCounts, h] at *
      omega

theorem countLookup_countsFoldl (fixed_length : ℚ) (position_types : List PositionType) :
    ∀ (items : List Item) (a : List (String × Nat)) (k : String),
      countLookup (items.foldl (countsStep fixed_length position_types) a) k =
        countLookup a k +
          items.countP
            (fun it => decide (assignedKey fixed_length position_types it = some k)) := by
  intro items
  induction items with
  | nil => intro a k; simp
  | cons it items ih =>
    intro a k
    rw [List.foldl_cons, ih, List.countP_cons]
    cases h : assignedKey fixed_length position_types it with
    | some k0 =>
      by_cases hk : k0 = k <;>
        simp [countsStep, h, countLookup_incrementKey, hk] <;> omega
    | none =>
      simp [countsStep, h]

theorem sumCounts_countsFoldl (fixed_length : ℚ) (position_types : List PositionType) :
    ∀ (items : List Item) (a : List (String × Nat)),
      sumCounts (items.foldl (countsStep fixed_length position_types) a) =
        sumCounts a +
          items.countP
            (fun it => (assignedKey fixed_length position_types it).isSome) := by
  intro items
  induction items with
  | nil => intro a; simp
  | cons it items ih =>
    intro a
    rw [List.foldl_cons, ih, List.countP_cons]
    cases h : assignedKey fixed_length position_types it with
    | some k0 => simp [countsStep, h, sumCounts_incrementKey]; omega
    | none => simp [countsStep, h]

theorem length_filterMap_eq_countP {α β : Type _} (f : α → Option β) :
    ∀ l : List α, (l.filterMap f).length = l.countP (fun a => (f a).isSome) := by
  intro l
  induction l with
  | nil => simp
  | cons a l ih =>
    cases h : f a with
    | none => simp [List.filterMap_cons, h, List.countP_cons, ih]
    | some b => simp [List.filterMap_cons, h, List.countP_cons, ih]

theorem filterMap_map_sublist {α β γ : Type _} (f : α → Option β) (g : β → γ)
    (s : α → γ) (hf : ∀ a b, f a = some b → g b = s a) :
    ∀ l : List α, ((l.filterMap f).map g).Sublist (l.map s) := by
  intro l
  induction l with
  | nil => simp
  | cons a l ih =>
    cases h : f a with
    | none =>
      rw [List.filterMap_cons_none h, List.map_cons]
      exact ih.cons (s a)
    | some b =>
      rw [List.filterMap_cons_some h, List.map_cons, List.map_cons, hf a b h]
      exact ih.cons₂ (s a)

theorem countP_add_countP_comp {α : Type _} (p q : α → Bool)
    (hpq : ∀ a, p a = true ↔ ¬(q a = true)) :
    ∀ l : List α, l.countP p + l.countP q = l.length := by
  intro l
  induction l with
  | nil => simp
  | cons a l ih =>
    rw [List.countP_cons, List.countP_cons]
    cases hp : p a with
    | true =>
      have hq : q a = false := by
        rw [Bool.eq_false_iff]; exact (hpq a).mp hp
      simp [hp, hq]
      omega
    | false =>
      have hq : q a = true := by
        by_contra hq
        have h2 := (hpq a).mpr hq
        rw [hp] at h2
        exact Bool.false_ne_true h2
      simp [hp, hq]
      omega

theorem assignedRecord_isSome (fixed_length : ℚ)
    (position_types : List PositionType) (item : Item) :
    (assignedRecord fixed_length position_types item).isSome =
      (assignedPosition fixed_length position_types item).isSome := by
  simp [assignedRecord]

theorem unassignedId_isSome (fixed_length : ℚ)
    (position_types : List PositionType) (item : Item) :
    (unassignedId fixed_length position_types item).isSome =
      !(assignedPosition fixed_length position_types item).isSome := by
  cases h : assignedPosition fixed_length position_types item <;>
    simp [unassignedId, h]

theorem filterMap_sublist {α γ : Type _} (f : α → Option γ) (s : α → γ)
    (hf : ∀ a b, f a = some b → b = s a) :
    ∀ l : List α, (l.filterMap f).Sublist (l.map s) := by
  intro l
  induction l with
  | nil => simp
  | cons a l ih =>
    cases h : f a with
    | none =>
      rw [List.filterMap_cons_none h, List.map_cons]
      exact ih.cons (s a)
    | some b =>
      rw [List.filterMap_cons_some h, List.map_cons, hf a b h]
      exact ih.cons₂ (s a)

/-! ### Evaluation lemmas for the concrete records -/

theorem fitsCheck_itemH46_pos50 : fitsCheck 48 itemH46 pos50 = true :=
  (fitsCheck_iff 48 itemH46 pos50).mpr (by norm_num [itemH46, pos50, clearance])

theorem fitsCheck_itemBig_pos50 : fitsCheck 48 itemBig pos50 = false := by
  rw [Bool.eq_false_iff]
  intro h
  exact absurd ((fitsCheck_iff 48 itemBig pos50).mp h).2.2.1
    (by norm_num [itemBig, pos50, clearance])

theorem assignedPosition_itemH46 :
    assignedPosition 48 [pos50] itemH46 = some pos50 := by
  simp only [assignedPosition, sortPositions, List.insertionSort,
    List.orderedInsert]
  rw [List.find?_cons_of_pos [] fitsCheck_itemH46_pos50]

theorem assignedPosition_itemBig :
    assignedPosition 48 [pos50] itemBig = none := by
  simp only [assignedPosition, sortPositions, List.insertionSort,
    List.orderedInsert]
  rw [List.find?_cons_of_neg [] (by simp [fitsCheck_itemBig_pos50])]
  rfl

theorem fitsCheck_itemFit_pos50 : fitsCheck 48 itemFit pos50 = true :=
  (fitsCheck_iff 48 itemFit pos50).mpr (by norm_num [itemFit, pos50, clearance])

theorem fitsCheck_itemFit_pos60 : fitsCheck 48 itemFit pos60 = true :=
  (fitsCheck_iff 48 itemFit pos60).mpr (by norm_num [itemFit, pos60, clearance])

theorem sortPositions_pair : sortPositions [pos60, pos50] = [pos50, pos60] := by
  norm_num [sortPositions, List.insertionSort, List.orderedInsert, heightLE,
    pos50, pos60]

/-- Scenario 4 of the spec: with positions of max height 60 and 50 in the
catalog, both accepting `itemFit`, the scan picks the 50-height one. -/
theorem assignedPosition_scenario4 :
    assignedPosition 48 [pos60, pos50] itemFit = some pos50 := by
  simp only [assignedPosition]
  rw [sortPositions_pair, List.find?_cons_of_pos [pos60] fitsCheck_itemFit_pos50]

/-! ### Claim theorems -/

/-- Claim C1: `assign_pallets` is first-fit by ascending `max_height`:
whenever an item is assigned to a position type `p`, no position type in the
catalog with strictly smaller `max_height` also passes the four-constraint
check for that item. -/
theorem assign_pallets_first_fit_min_height (fixed_length : ℚ)
    (position_types : List PositionType) (item : Item) (p : PositionType)
    (h : assignedPosition fixed_length position_types item = some p) :
    ∀ q ∈ position_types, q.max_height < p.max_height →
      fitsCheck fixed_length item q = false := by
  intro q hq hlt
  cases hx : fitsCheck fixed_length item q with
  | false => rfl
  | true =>
    exfalso
    have hfind : List.find? (fitsCheck fixed_length item)
        (sortPositions position_types) = some p := h
    obtain ⟨l₁, l₂, hdec, hfail⟩ := find?_first _ hfind
    have hqmem : q ∈ sortPositions position_types :=
      (List.perm_insertionSort heightLE position_types).mem_iff.mpr hq
    have hsorted : (sortPositions position_types).Pairwise heightLE :=
      List.sorted_insertionSort heightLE position_types
    rw [hdec] at hqmem hsorted
    rcases List.mem_append.mp hqmem with hq1 | hq2
    · exact absurd hx (by simp [hfail q hq1])
    · have hmid := (List.pairwise_append.mp hsorted).2.1
      rcases List.mem_cons.mp hq2 with rfl | hq3
      · exact lt_irrefl _ hlt
      · have hple : heightLE p q := (List.pairwise_cons.mp hmid).1 q hq3
        exact absurd hlt (not_lt.mpr hple)

/-- Witness for C1 at Scenario 4: positions of max height 60 and 50, the item
fitting both, is assigned to the 50-height position, and no strictly smaller
position fits it. -/
theorem assign_pallets_first_fit_min_height_witness :
    assignedPosition 48 [pos60, pos50] itemFit = some pos50 ∧
    (∀ q ∈ [pos60, pos50], q.max_height < pos50.max_height →
      fitsCheck 48 itemFit q = false) :=
  ⟨assignedPosition_scenario4,
    assign_pallets_first_fit_min_height 48 [pos60, pos50] itemFit pos50
      assignedPosition_scenario4⟩

/-- Claim C2: the scan of `assign_pallets` accepts an item at a position
exactly when the four constraints hold simultaneously (height against
`max_height` minus clearance, weight, width, length against the fixed
length), the clearance being the constant 4. -/
theorem assign_pallets_accepts_iff (fixed_length : ℚ) (item : Item)
    (p : PositionType) :
    (fitsCheck fixed_length item p = true ↔
      (item.height ≤ p.max_height - clearance ∧
       item.weight ≤ p.weight_capacity ∧
       item.width ≤ p.width_capacity ∧
       item.length ≤ fixed_length)) ∧ clearance = 4 := by
  constructor
  · rw [fitsCheck_iff]; tauto
  · rfl

/-- Claim C5: `assign_pallets` is deterministic: two runs on identical inputs
produce identical counts, identical assignment lists and identical unassigned
lists. -/
theorem assign_pallets_deterministic (fl1 fl2 : ℚ)
    (pts1 pts2 : List PositionType) (items1 items2 : List Item)
    (hfl : fl1 = fl2) (hpts : pts1 = pts2) (hitems : items1 = items2) :
    assign_pallets fl1 pts1 items1 = assign_pallets fl2 pts2 items2 := by
  subst hfl; subst hpts; subst hitems; rfl

/-- Witness for C5 at a concrete input. -/
theorem assign_pallets_deterministic_witness :
    assign_pallets 48 [pos50] [itemFit] = assign_pallets 48 [pos50] [itemFit] :=
  assign_pallets_deterministic 48 48 [pos50] [pos50] [itemFit] [itemFit]
    rfl rfl rfl

/-- Counterexample to claim C3: for an item of height 46 and a position of
max height 50 that otherwise satisfies it, the height check `46 <= 50 - 4`
SUCCEEDS (46 ≤ 46), so the position accepts the item: in a catalog with only
that position the item is assigned there and the unassigned list is empty,
contrary to the claim that the check fails and the item may end up
unassigned. -/
theorem height46_pos50_rejection_claim_false :
    fitsCheck 48 itemH46 pos50 = true ∧
    (assign_pallets 48 [pos50] [itemH46]).2.1 = [] ∧
    (assign_pallets 48 [pos50] [itemH46]).2.2 =
      [⟨"SKU46", "Aisle A Level 1"⟩] := by
  refine ⟨fitsCheck_itemH46_pos50, ?_, ?_⟩
  · rw [assign_pallets_eq]
    simp [unassignedId, assignedPosition_itemH46]
  · have hrec : assignedRecord 48 [pos50] itemH46 =
        some ⟨"SKU46", "Aisle A Level 1"⟩ := by
      simp only [assignedRecord, assignedPosition_itemH46]
      rfl
    rw [assign_pallets_eq]
    simp [hrec]

/-- Claim C3 (amended): for an item of height 46 under clearance 4 and a
position type of max height 50 otherwise satisfying the item, the height
check `46 <= 50 - 4` succeeds (46 ≤ 46), so that position ACCEPTS the item;
in particular, with that position alone in the catalog, the scan assigns the
item to it (it does not fall through to the unassigned list). -/
theorem height46_clearance4_accepted (fixed_length : ℚ) (item : Item)
    (p : PositionType) (hh : item.height = 46) (hmh : p.max_height = 50)
    (hl : item.length ≤ fixed_length) (hw : item.width ≤ p.width_capacity)
    (hwt : item.weight ≤ p.weight_capacity) :
    fitsCheck fixed_length item p = true ∧
    assignedPosition fixed_length [p] item = some p := by
  have hfit : fitsCheck fixed_length item p = true :=
    (fitsCheck_iff fixed_length item p).mpr
      ⟨hl, hw, by rw [hh, hmh]; norm_num [clearance], hwt⟩
  refine ⟨hfit, ?_⟩
  simp only [assignedPosition, sortPositions, List.insertionSort,
    List.orderedInsert]
  rw [List.find?_cons_of_pos [] hfit]

/-- Witness for the amended C3, at the concrete Scenario-3 data. -/
theorem height46_clearance4_accepted_witness :
    fitsCheck 48 itemH46 pos50 = true ∧
    assignedPosition 48 [pos50] itemH46 = some pos50 :=
  height46_clearance4_accepted 48 itemH46 pos50 rfl rfl
    (by norm_num [itemH46]) (by norm_num [itemH46, pos50])
    (by norm_num [itemH46, pos50])

/-- Claim C4: `assign_pallets` accounts for every input item exactly once:
the assigned-record list and the unassigned list together have as many
entries as there are items, no single item is both assigned and unassigned,
and the counts in the assignments dict sum to the number of assigned
records. -/
theorem assign_pallets_accounting (fixed_length : ℚ)
    (position_types : List PositionType) (items : List Item) :
    (assign_pallets fixed_length position_types items).2.2.length +
        (assign_pallets fixed_length position_types items).2.1.length =
      items.length ∧
    sumCounts (assign_pallets fixed_length position_types items).1 =
      (assign_pallets fixed_length position_types items).2.2.length ∧
    ∀ item : Item,
      ((assignedRecord fixed_length position_types item).isSome ↔
        unassignedId fixed_length position_types item = none) := by
  rw [assign_pallets_eq]
  refine ⟨?_, ?_, ?_⟩
  · rw [length_filterMap_eq_countP, length_filterMap_eq_countP]
    exact countP_add_countP_comp _ _
      (fun it => by
        rw [assignedRecord_isSome, unassignedId_isSome]
        cases h : assignedPosition fixed_length position_types it <;> simp [h])
      items
  · rw [length_filterMap_eq_countP, sumCounts_countsFoldl]
    have hfun : (fun it => (assignedKey fixed_length position_types it).isSome) =
        (fun it => (assignedRecord fixed_length position_types it).isSome) := by
      funext it
      cases h : assignedPosition fixed_length position_types it <;>
        simp [assignedKey, assignedRecord, h]
    rw [hfun]
    simp [sumCounts]
  · intro it
    cases h : assignedPosition fixed_length position_types it <;>
      simp [assignedRecord, unassignedId, h]

/-- Claim C6: each item's individual outcome is a function of the item and
the catalog alone (the output lists are pointwise images of the per-item
decision functions `assignedRecord`/`unassignedId`, independent of the other
items), and for every permutation of the item list the per-position counts
are equal at every key. -/
theorem assign_pallets_outcome_independent (fixed_length : ℚ)
    (position_types : List PositionType) (items items2 : List Item)
    (hperm : items.Perm items2) :
    ((assign_pallets fixed_length position_types items).2.2 =
        items.filterMap (assignedRecord fixed_length position_types) ∧
      (assign_pallets fixed_length position_types items).2.1 =
        items.filterMap (unassignedId fixed_length position_types)) ∧
    ∀ key : String,
      countLookup (assign_pallets fixed_length position_types items).1 key =
        countLookup (assign_pallets fixed_length position_types items2).1 key := by
  refine ⟨⟨?_, ?_⟩, ?_⟩
  · rw [assign_pallets_eq]
  · rw [assign_pallets_eq]
  · intro key
    rw [assign_pallets_eq, assign_pallets_eq]
    show countLookup (items.foldl (countsStep fixed_length position_types) []) key =
      countLookup (items2.foldl (countsStep fixed_length position_types) []) key
    rw [countLookup_countsFoldl, countLookup_countsFoldl, hperm.countP_eq]

/-- Witness for C6: a two-item list and its transposition. -/
theorem assign_pallets_outcome_independent_witness :
    (((assign_pallets 48 [pos50] [itemFit, itemBig]).2.2 =
        [itemFit, itemBig].filterMap (assignedRecord 48 [pos50]) ∧
      (assign_pallets 48 [pos50] [itemFit, itemBig]).2.1 =
        [itemFit, itemBig].filterMap (unassignedId 48 [pos50])) ∧
    ∀ key : String,
      countLookup (assign_pallets 48 [pos50] [itemFit, itemBig]).1 key =
        countLookup (assign_pallets 48 [pos50] [itemBig, itemFit]).1 key) :=
  assign_pallets_outcome_independent 48 [pos50] [itemFit, itemBig]
    [itemBig, itemFit] (List.Perm.swap itemBig itemFit [])

/-- Claim C7: an item that fits no position in the catalog is not an error:
its sku is appended to the unassigned list, and the computation continues
unchanged for all remaining items (the function is total, so it returns a
normal triple for every input). -/
theorem assign_pallets_unassigned_no_error (fixed_length : ℚ)
    (position_types : List PositionType) (l1 l2 : List Item) (item : Item)
    (hnofit : ∀ p ∈ position_types, fitsCheck fixed_length item p = false) :
    (assign_pallets fixed_length position_types (l1 ++ item :: l2)).2.1 =
      (assign_pallets fixed_length position_types l1).2.1 ++
        item.sku :: (assign_pallets fixed_length position_types l2).2.1 ∧
    (assign_pallets fixed_length position_types (l1 ++ item :: l2)).2.2 =
      (assign_pallets fixed_length position_types l1).2.2 ++
        (assign_pallets fixed_length position_types l2).2.2 := by
  have hnone : assignedPosition fixed_length position_types item = none := by
    simp only [assignedPosition]
    rw [List.find?_eq_none]
    intro x hx
    have hx2 : x ∈ position_types :=
      (List.perm_insertionSort heightLE position_types).mem_iff.mp hx
    simp [hnofit x hx2]
  refine ⟨?_, ?_⟩
  · rw [assign_pallets_eq, assign_pallets_eq, assign_pallets_eq]
    simp [List.filterMap_append, unassignedId, hnone]
  · rw [assign_pallets_eq, assign_pallets_eq, assign_pallets_eq]
    simp [List.filterMap_append, assignedRecord, hnone]

/-- Witness for C7: `itemBig` fits nowhere in the one-position catalog and is
recorded between the outcomes of the surrounding items. -/
theorem assign_pallets_unassigned_no_error_witness :
    (assign_pallets 48 [pos50] ([itemFit] ++ itemBig :: [itemH46])).2.1 =
      (assign_pallets 48 [pos50] [itemFit]).2.1 ++
        itemBig.sku :: (assign_pallets 48 [pos50] [itemH46]).2.1 ∧
    (assign_pallets 48 [pos50] ([itemFit] ++ itemBig :: [itemH46])).2.2 =
      (assign_pallets 48 [pos50] [itemFit]).2.2 ++
        (assign_pallets 48 [pos50] [itemH46]).2.2 :=
  assign_pallets_unassigned_no_error 48 [pos50] [itemFit] [itemH46] itemBig
    (by
      intro p hp
      rcases List.mem_singleton.mp hp with rfl
      exact fitsCheck_itemBig_pos50)

/-- Counterexample to claim C9: the second component of the returned triple
is the unassigned-sku list and the third is the assignment-record list, not
the other way round: on a catalog where the only item fits nowhere, the
second component is `["BIG"]` (its sku) and the third is `[]`. -/
theorem assign_pallets_return_order_claim_false :
    (assign_pallets 48 [pos50] [itemBig]).2.1 = ["BIG"] ∧
    (assign_pallets 48 [pos50] [itemBig]).2.2 = ([] : List Assignment) := by
  rw [assign_pallets_eq]
  have hun : unassignedId 48 [pos50] itemBig = some "BIG" := by
    simp only [unassignedId, assignedPosition_itemBig]
    rfl
  constructor
  · simp [hun]
  · simp [assignedRecord, assignedPosition_itemBig]

/-- Claim C9 (amended): `assign_pallets` takes the fixed length, the
position-type catalog and the item list as inputs (the clearance is the
fixed constant 4 inside the function, not a parameter), and returns the
triple (position_counts, unassigned_ids, item_assignments) in that order. -/
theorem assign_pallets_contract_order (fixed_length : ℚ)
    (position_types : List PositionType) (items : List Item) :
    assign_pallets fixed_length position_types items =
      (items.foldl (countsStep fixed_length position_types) [],
       items.filterMap (unassignedId fixed_length position_types),
       items.filterMap (assignedRecord fixed_length position_types)) :=
  assign_pallets_eq fixed_length position_types items

/-- Claim C10: the outputs preserve input order: the assignment records are
exactly the per-item records of the assigned items in input order, their sku
sequence is a sublist of the input sku sequence, and likewise the unassigned
sku list. -/
theorem assign_pallets_preserves_input_order (fixed_length : ℚ)
    (position_types : List PositionType) (items : List Item) :
    ((assign_pallets fixed_length position_types items).2.2 =
        items.filterMap (assignedRecord fixed_length position_types) ∧
      ((assign_pallets fixed_length position_types items).2.2.map
        Assignment.sku).Sublist (items.map Item.sku)) ∧
    ((assign_pallets fixed_length position_types items).2.1 =
        items.filterMap (unassignedId fixed_length position_types) ∧
      ((assign_pallets fixed_length position_types items).2.1).Sublist
        (items.map Item.sku)) := by
  rw [assign_pallets_eq]
  refine ⟨⟨rfl, ?_⟩, ⟨rfl, ?_⟩⟩
  · exact filterMap_map_sublist _ _ _
      (fun a b hb => by
        simp only [assignedRecord] at hb
        cases h : assignedPosition fixed_length position_types a with
        | none => rw [h] at hb; simp at hb
        | some p =>
          rw [h] at hb
          injection hb with hb
          rw [← hb])
      items
  · exact filterMap_sublist _ _
      (fun a b hb => by
        simp only [unassignedId] at hb
        cases h : assignedPosition fixed_length position_types a with
        | none =>
          rw [h] at hb
          injection hb with hb
          exact hb.symm
        | some p => rw [h] at hb; simp at hb)
      items

theorem distribute_sum (sku : String) (pl pw bh bw : ℚ) (bpl bpp : Nat)
    (hbpp : 1 ≤ bpp) :
    ∀ r, ((distribute sku pl pw bh bw bpl bpp r).map Pallet.boxes).sum = r := by
  intro r
  induction r using Nat.strong_induction_on with
  | _ r ih =>
    rcases r with _ | r
    · simp [distribute]
    · rw [distribute]
      have hn : ¬(min bpp (r + 1) = 0) := by omega
      rw [dif_neg hn]
      rw [List.map_cons, List.sum_cons]
      rw [ih (r + 1 - min bpp (r + 1)) (by omega)]
      dsimp only
      omega

/-- Claim C8: for every packable box (one on which `configure` succeeds),
the produced pallets' box counts sum exactly to the box's `total_boxes`. -/
theorem configure_total_boxes (box : Box) (pallet_length pallet_width : ℚ)
    (position_types : List PositionType) (cl : ℚ) (pallets : List Pallet)
    (h : configure box pallet_length pallet_width position_types cl =
      some pallets) :
    (pallets.map Pallet.boxes).sum = box.total_boxes := by
  simp only [configure] at h
  by_cases h1 : boxes_per_layer pallet_length pallet_width box = 0
  · simp [h1] at h
  · by_cases h2 : max_layers cl box
        (boxes_per_layer pallet_length pallet_width box) position_types = 0
    · simp [h1, h2] at h
    · simp only [h1, h2, if_false, if_neg, Option.some.injEq] at h
      rw [← h]
      exact distribute_sum _ _ _ _ _ _ _
        (Nat.mul_pos (Nat.pos_of_ne_zero h1) (Nat.pos_of_ne_zero h2)) _

theorem boxes_per_layer_scenario1 : boxes_per_layer 48 40 box1 = 16 := by
  have hf1 : Nat.floor ((48:ℚ) / 12) = 4 := by norm_num
  have hf2 : Nat.floor ((40:ℚ) / 10) = 4 := by norm_num
  have hf3 : Nat.floor ((24:ℚ) / 5) = 4 := by
    rw [Nat.floor_eq_iff] <;> norm_num
  have hf4 : Nat.floor ((10:ℚ) / 3) = 3 := by
    rw [Nat.floor_eq_iff] <;> norm_num
  rw [boxes_per_layer]
  norm_num [box1, hf1, hf2, hf3, hf4]

theorem layersAt_scenario1 : layersAt 4 box1 16 pos50 = some 2 := by
  have hf1 : Nat.floor ((23:ℚ) / 5) = 4 := by
    rw [Nat.floor_eq_iff] <;> norm_num
  have hf2 : Nat.floor ((5:ℚ) / 2) = 2 := by
    rw [Nat.floor_eq_iff] <;> norm_num
  rw [layersAt]
  rw [if_pos (by norm_num [box1, pos50])]
  norm_num [box1, pos50, hf1, hf2]

theorem max_layers_scenario1 : max_layers 4 box1 16 [pos50] = 2 := by
  rw [max_layers]
  rw [List.filterMap_cons_some layersAt_scenario1]
  simp

theorem distribute_scenario1 :
    distribute "SKU1" 48 40 10 50 16 32 100 = scenario1Pallets := by
  have hc2 : Nat.ceil ((32:ℚ) / 16) = 2 := by norm_num
  have hc1 : Nat.ceil ((1:ℚ) / 4) = 1 := by
    rw [Nat.ceil_eq_iff] <;> norm_num
  norm_num [distribute, scenario1Pallets, hc2, hc1]

/-- Scenario 1 of the spec, evaluated on the spec-modelled configurator:
boxes_per_layer 16, max_layers 2, pallets of 32, 32, 32 and 4 boxes. -/
theorem configure_scenario1 :
    configure box1 48 40 [pos50] 4 = some scenario1Pallets := by
  rw [configure]
  rw [boxes_per_layer_scenario1]
  rw [if_neg (by norm_num)]
  rw [max_layers_scenario1]
  rw [if_neg (by norm_num)]
  rw [show box1.sku = "SKU1" from rfl, show box1.height = (10:ℚ) from rfl,
    show box1.weight = (50:ℚ) from rfl,
    show box1.total_boxes = 100 from rfl]
  rw [show (16 * 2 : Nat) = 32 from rfl]
  rw [distribute_scenario1]

/-- Witness for C8 at Scenario 1 of the spec. -/
theorem configure_total_boxes_witness :
    configure box1 48 40 [pos50] 4 = some scenario1Pallets ∧
    (scenario1Pallets.map Pallet.boxes).sum = box1.total_boxes :=
  ⟨configure_scenario1,
    configure_total_boxes box1 48 40 [pos50] 4 scenario1Pallets
      configure_scenario1⟩

end Warehouse
